import Mathlib

/-!
Verification of the thinbus-srp-npm SRP-6a protocol engine.

This file shallowly embeds the protocol core of the repository:
the client session (src/browser.js) and the server session (src/server.js),
both produced by factory closures over the group parameters
(N as decimal string, g as decimal string, k as hex string) and using a
hash function H on strings together with jsbn big integers.

Big integers are modelled as Nat (with Int where jsbn subtraction can go
negative); hex wire strings are modelled as Lean Strings; the hash is a
parameter (H : String -> String) standing for SHA-256 over UTF-8 bytes of
the concatenated hex strings; jsbn's toString(16) / new BigInteger(s,16)
are modelled by toHex / fromHex below.
-/

namespace Thinbus

/-- Character for a single digit value, matching jsbn's digit alphabet
0-9 then lowercase a-f (BigInteger.toString uses lowercase hex). -/
def digitChar (d : Nat) : Char :=
  if d < 10 then Char.ofNat (48 + d) else Char.ofNat (87 + d)

/-- Value of one hex character, matching jsbn's intAt table: decimal digits,
lowercase a-f and uppercase A-F parse; anything else is not a digit. -/
def hexVal? (c : Char) : Option Nat :=
  if 48 ≤ c.toNat ∧ c.toNat ≤ 57 then some (c.toNat - 48)
  else if 97 ≤ c.toNat ∧ c.toNat ≤ 102 then some (c.toNat - 87)
  else if 65 ≤ c.toNat ∧ c.toNat ≤ 70 then some (c.toNat - 55)
  else none

/-- Model of jsbn's new BigInteger(s, 16) on a character list: big-endian
accumulation; characters that are not hex digits are skipped (jsbn's
fromString ignores characters with no digit value). -/
def fromHexList (l : List Char) : Nat :=
  l.foldl (fun acc c => match hexVal? c with
    | some d => 16 * acc + d
    | none => acc) 0

/-- Model of jsbn's new BigInteger(s, 16) used by this.fromHex(s) in both
src/browser.js and src/server.js. -/
def fromHex (s : String) : Nat :=
  fromHexList s.data

/-- Little-endian digit list of n in base b, fuel-indexed so that the
recursion is structural and kernel-reducible on large literals. -/
def digitsBAux (b : Nat) : Nat → Nat → List Nat
  | _, 0 => []
  | 0, _ + 1 => []
  | fuel + 1, n + 1 => ((n + 1) % b) :: digitsBAux b fuel ((n + 1) / b)

/-- Little-endian digit list of n in base b (fuel n is always enough). -/
def digitsB (b n : Nat) : List Nat :=
  digitsBAux b n n

/-- Model of jsbn's BigInteger.toString(b) for nonnegative values: most
significant digit first, no leading zeros, and 0 renders as the single
digit 0. -/
def toStringB (b n : Nat) : String :=
  if n = 0 then "0" else String.mk (((digitsB b n).reverse).map digitChar)

/-- Model of this.toHex(n) = n.toString(16) in src/browser.js line 158 and
src/server.js line 91. -/
def toHex (n : Nat) : String :=
  toStringB 16 n

/-- Model of jsbn's default BigInteger.toString() (radix 10), which is what
JavaScript string concatenation applies to a BigInteger value (used for
this.salt inside the server's randomB entropy mix). -/
def toDec (n : Nat) : String :=
  toStringB 10 n

/-- Model of the leading-zero canonicalization loop appearing (only) around
the hash outputs:
while (s.substring(0, 1) === '0') s = s.substring(1). -/
def stripZeros (s : String) : String :=
  String.mk (s.data.dropWhile (fun c => c = '0'))

/-- Model of JavaScript's String.prototype.toUpperCase restricted to the
ASCII range used by hex strings. -/
def jsToUpper (s : String) : String :=
  String.mk (s.data.map Char.toUpper)

/-! Session state constants, shared by the client constructor
(src/browser.js lines 33-56) and the server constructor
(src/server.js lines 29-52). -/

abbrev INIT : Nat := 0
abbrev STEP_1 : Nat := 1
abbrev STEP_2 : Nat := 2
abbrev STEP_3 : Nat := 3

/-- Client session fields as initialised by the SRP6JavascriptClientSession
constructor (src/browser.js lines 58-72): state starts at INIT and every
value field starts null. The client stores its salt as the raw string it
was given (generateX does this.salt = salt). -/
structure ClientSession where
  state : Nat := INIT
  x : Option Nat := none
  v : Option Nat := none
  I : Option String := none
  P : Option String := none
  salt : Option String := none
  B : Option Nat := none
  A : Option Nat := none
  a : Option Nat := none
  u : Option Nat := none
  S : Option Nat := none
  K : Option String := none
  SS : Option String := none
  M1str : Option String := none
deriving DecidableEq, Repr

/-- Server session fields as initialised by the SRP6JavascriptServerSession
constructor (src/server.js lines 54-63). The server stores its salt as a
big integer (step1 does this.salt = this.fromHex(salt)). -/
structure ServerSession where
  state : Nat := INIT
  v : Option Nat := none
  I : Option String := none
  salt : Option Nat := none
  b : Option Nat := none
  B : Option Nat := none
  S : Option Nat := none
  K : Option String := none
  SS : Option String := none
deriving DecidableEq, Repr

/-- Model of generateX (src/browser.js lines 92-124). Computes
h1 = H(identity ++ ":" ++ password) with leading zero hex digits stripped,
then uppercases the WHOLE concatenation salt ++ h1 (the source reads
(salt+hash1).toUpperCase()), hashes, strips leading zeros again, parses as
hex and reduces mod N. Mutates this.salt and this.x. The three argument
checks run before any mutation; check only fires on the strings "" and "0"
(or null). -/
def generateX (N : Nat) (H : String → String) (sess : ClientSession)
    (salt identity password : String) : Except String (Nat × ClientSession) :=
  if salt = "" ∨ salt = "0" then Except.error "salt must not be null, empty or zero"
  else if identity = "" ∨ identity = "0" then
    Except.error "identity must not be null, empty or zero"
  else if password = "" ∨ password = "0" then
    Except.error "password must not be null, empty or zero"
  else
    let sess1 := { sess with salt := some salt }
    let hash1 := stripZeros (H (identity ++ ":" ++ password))
    let concat := jsToUpper (salt ++ hash1)
    let hash := stripZeros (H concat)
    let x := fromHex hash % N
    Except.ok (x, { sess1 with x := some x })

/-- The x value produced by generateX, as a standalone formula (used to
state theorems; generateX_ok relates it to the session method). -/
def clientX (N : Nat) (H : String → String) (salt identity password : String) : Nat :=
  fromHex (stripZeros (H (jsToUpper
    (salt ++ stripZeros (H (identity ++ ":" ++ password)))))) % N

/-- Model of generateVerifier (src/browser.js lines 246-255):
v = g^x mod N via generateX, returned as its natural hex string with no
leading-zero stripping. Mutates this.v. -/
def generateVerifier (N g : Nat) (H : String → String) (sess : ClientSession)
    (salt identity password : String) : Except String (String × ClientSession) :=
  match generateX N H sess salt identity password with
  | Except.error e => Except.error e
  | Except.ok (x, sess1) =>
    let v := g ^ x % N
    Except.ok (toHex v, { sess1 with v := some v })

/-- Model of generateRandomSalt (src/browser.js lines 223-234): the date
string, the optional server salt and the locally drawn random hex string
are concatenated with ':' separators and hashed; the hash output is
returned as-is (no leading-zero stripping). -/
def generateRandomSalt (H : String → String)
    (dateStr optionalServerSalt randHex : String) : String :=
  H (dateStr ++ ":" ++ optionalServerSalt ++ ":" ++ randHex)

/-- Model of client step1 (src/browser.js lines 271-285). The two argument
checks run first; then this.I and this.P are assigned; only AFTER that is
the state checked, so a call in the wrong state still overwrites I and P
before the IllegalStateException is raised. -/
def clientStep1 (sess : ClientSession) (identity password : String) :
    Except String Unit × ClientSession :=
  if identity = "" ∨ identity = "0" then
    (Except.error "identity must not be null, empty or zero", sess)
  else if password = "" ∨ password = "0" then
    (Except.error "password must not be null, empty or zero", sess)
  else
    let sess1 := { sess with I := some identity, P := some password }
    if sess1.state ≠ INIT then
      (Except.error "IllegalStateException not in state INIT", sess1)
    else
      (Except.ok (), { sess1 with state := STEP_1 })

/-- Model of computeU (src/browser.js lines 297-312 and src/server.js lines
205-220, identical code): u = H(Astr ++ Bstr) parsed as hex, fatal if
zero. -/
def computeU (H : String → String) (Astr Bstr : String) : Except String Nat :=
  if Astr = "" ∨ Astr = "0" then Except.error "Astr must not be null, empty or zero"
  else if Bstr = "" ∨ Bstr = "0" then Except.error "Bstr must not be null, empty or zero"
  else
    let u := fromHex (H (Astr ++ Bstr))
    if u = 0 then Except.error "SRP6Exception bad shared public value 'u' as u==0"
    else Except.ok u

/-- Model of computeSessionKey (src/browser.js lines 144-154):
S = (B - k * g^x) ^ (a + u * x) mod N. The five argument checks are on
BigInteger values and can only fire on null, never here. jsbn's modPow
first reduces the (possibly negative) base into [0, N) and returns a
nonnegative representative, modelled by the Int emod below. -/
def computeSessionKey (N g k x u a B : Nat) : Nat :=
  let e := u * x + a
  let tmp := (g ^ x % N) * k
  ((((B : Int) - (tmp : Int)) % (N : Int)).toNat) ^ e % N

/-- Model of client randomA (src/browser.js lines 333-376) given the stream
of (random hex string, current-time-in-millis string) pairs the loop
consumes. Each candidate adds the random draw to the one-time mixing value
fromHex (H (I ++ ":" ++ salt ++ ":" ++ time)) and loops while the candidate
is zero; an exhausted stream models the loop never terminating.
The call site (src/browser.js line 435) passes this.N — the prototype's N
accessor FUNCTION, not its value — so the modPow(ONE, N) reduction is not a
reduction modulo the prime (see claim C8); the candidate is the plain
sum. -/
def randomA (H : String → String) (I salt : String) :
    List (String × String) → Option Nat
  | [] => none
  | (rstr, time) :: rest =>
    let rBi := fromHex rstr
    let oneTimeBi := fromHex (H (I ++ ":" ++ salt ++ ":" ++ time))
    let r := oneTimeBi + rBi
    if r = 0 then randomA H I salt rest else some r

/-- Model of server randomB (src/server.js lines 240-281) given the stream
of (random hex string, time string) pairs. Identical to randomA except that
here this.N is the BigInteger value, so modPow(ONE, N) reduces the
candidate into [0, N), and the loop gives [1, N). saltDec is the decimal
rendering of the stored salt BigInteger (JavaScript string concatenation
uses BigInteger.toString(), radix 10). -/
def randomB (H : String → String) (N : Nat) (I saltDec : String) :
    List (String × String) → Option Nat
  | [] => none
  | (rstr, time) :: rest =>
    let rBi := fromHex rstr
    let oneTimeBi := fromHex (H (I ++ ":" ++ saltDec ++ ":" ++ time))
    let r := (oneTimeBi + rBi) % N
    if r = 0 then randomB H N I saltDec rest else some r

/-- Model of client step2 (src/browser.js lines 397-478): checks s and BB,
requires state STEP_1, stores B = fromHex BB, rejects B ≡ 0 (mod N),
derives x (which stores the salt), nulls the password, draws a, computes
A = g^a mod N, u = H(A|B) (fatal if 0), S, and
M1 = H(AA ++ BB ++ toHex S) with leading zeros stripped; advances to
STEP_2 and returns (A hex, M1). Mutations are modelled exactly up to each
possible throw point. -/
def clientStep2 (N g k : Nat) (H : String → String) (sess : ClientSession)
    (s BB : String) (rands : List (String × String)) :
    Except String (String × String) × ClientSession :=
  if s = "" ∨ s = "0" then (Except.error "s must not be null, empty or zero", sess)
  else if BB = "" ∨ BB = "0" then
    (Except.error "BB must not be null, empty or zero", sess)
  else if sess.state ≠ STEP_1 then
    (Except.error "IllegalStateException not in state STEP_1", sess)
  else
    let Bv := fromHex BB
    let sess1 := { sess with B := some Bv }
    if Bv % N = 0 then
      (Except.error "SRP6Exception bad server public value 'B' as B == 0 (mod N)", sess1)
    else
      match sess1.I, sess1.P with
      | some I, some P =>
        (match generateX N H sess1 s I P with
         | Except.error e => (Except.error e, sess1)
         | Except.ok (x, sess2) =>
           let sess3 := { sess2 with P := none }
           match randomA H I s rands with
           | none => (Except.error "randomA: random source exhausted", sess3)
           | some a =>
             let A := g ^ a % N
             let sess4 := { sess3 with a := some a, A := some A }
             match computeU H (toHex A) BB with
             | Except.error e => (Except.error e, sess4)
             | Except.ok u =>
               let S := computeSessionKey N g k x u a Bv
               let sess5 := { sess4 with u := some u, S := some S }
               let AA := toHex A
               let M1raw := H (AA ++ BB ++ toHex S)
               let sess6 := { sess5 with M1str := some M1raw }
               if M1raw = "" ∨ M1raw = "0" then
                 (Except.error "M1str must not be null, empty or zero", sess6)
               else
                 let M1 := stripZeros M1raw
                 (Except.ok (AA, M1), { sess6 with M1str := some M1, state := STEP_2 }))
      | none, _ => (Except.error "identity must not be null, empty or zero", sess1)
      | some _, none => (Except.error "password must not be null, empty or zero", sess1)

/-- Model of client step3 (src/browser.js lines 495-527): checks M2 (with no
name, so the message says undefined), requires STEP_2, recomputes the
expected M2 = H(toHex A ++ M1str ++ toHex S) with leading zeros stripped,
compares, advances to STEP_3 and returns true. -/
def clientStep3 (H : String → String) (sess : ClientSession) (M2 : String) :
    Except String Bool × ClientSession :=
  if M2 = "" ∨ M2 = "0" then
    (Except.error "undefined must not be null, empty or zero", sess)
  else if sess.state ≠ STEP_2 then
    (Except.error "IllegalStateException State violation: Session must be in STEP_2 state",
      sess)
  else
    match sess.A, sess.M1str, sess.S with
    | some A, some M1str, some S =>
      let computedM2 := stripZeros (H (toHex A ++ M1str ++ toHex S))
      if computedM2 ≠ M2 then
        (Except.error "SRP6Exception Bad server credentials", sess)
      else
        (Except.ok true, { sess with state := STEP_3 })
    | _, _, _ => (Except.error "TypeError: null field", sess)

/-- Model of client getSessionKey (src/browser.js lines 191-205): null until
S is computed; with the literal argument false returns the raw shared
secret hex SS = toHex S (cached in this.SS); otherwise returns K = H(SS),
computing and caching it on first use. The argument is Option Bool: none
models calling with no argument (undefined). -/
def clientGetSessionKey (H : String → String) (sess : ClientSession)
    (hash : Option Bool) : Option String × ClientSession :=
  match sess.S with
  | none => (none, sess)
  | some S =>
    let SS := toHex S
    let sess1 := { sess with SS := some SS }
    if hash = some false then (some SS, sess1)
    else
      match sess1.K with
      | some K => (some K, sess1)
      | none =>
        let K := H SS
        (some K, { sess1 with K := some K })

/-- Model of server step1 (src/server.js lines 168-193): requires INIT (the
state check comes FIRST here, unlike client step1), checks the three
arguments, stores identity, v = fromHex verifier and salt = fromHex salt,
draws b, computes B = (g^b mod N + v*k) mod N and returns toHex B (natural
hex, no stripping). -/
def serverStep1 (N g k : Nat) (H : String → String) (sess : ServerSession)
    (identity salt verifier : String) (rands : List (String × String)) :
    Except String String × ServerSession :=
  if sess.state ≠ INIT then
    (Except.error "IllegalStateException not in state INIT", sess)
  else if identity = "" ∨ identity = "0" then
    (Except.error "identity must not be null, empty or zero", sess)
  else if salt = "" ∨ salt = "0" then
    (Except.error "salt must not be null, empty or zero", sess)
  else if verifier = "" ∨ verifier = "0" then
    (Except.error "verifier must not be null, empty or zero", sess)
  else
    let v := fromHex verifier
    let saltN := fromHex salt
    let sess1 := { sess with
      I := some identity
      v := some v
      salt := some saltN
      state := STEP_1 }
    match randomB H N identity (toDec saltN) rands with
    | none => (Except.error "randomB: random source exhausted", sess1)
    | some b =>
      let B := (g ^ b % N + v * k) % N
      (Except.ok (toHex B), { sess1 with b := some b, B := some B })

/-- Model of server step2 (src/server.js lines 305-355): requires STEP_1,
checks A and M1, computes u = H(Astr ++ toHex B) (fatal if zero),
S = (v^u mod N * A)^b mod N (stored before any credential check), the
expected M1 = H(Astr ++ Bstr ++ toHex S) with leading zeros stripped,
throws Bad client credentials on mismatch, else returns
M2 = H(toHex A ++ M1str ++ toHex S) with leading zeros stripped and
advances to STEP_2. Note M2 hashes toHex (fromHex Astr), not Astr
itself. -/
def serverStep2 (N g k : Nat) (H : String → String) (sess : ServerSession)
    (Astr M1client : String) : Except String String × ServerSession :=
  if sess.state ≠ STEP_1 then
    (Except.error "IllegalStateException not in state STEP_1", sess)
  else if Astr = "" ∨ Astr = "0" then
    (Except.error "A must not be null, empty or zero", sess)
  else if M1client = "" ∨ M1client = "0" then
    (Except.error "M1 must not be null, empty or zero", sess)
  else
    match sess.B, sess.v, sess.b with
    | some B, some v, some b =>
      let A := fromHex Astr
      let Bstr := toHex B
      (match computeU H Astr Bstr with
       | Except.error e => (Except.error e, sess)
       | Except.ok u =>
         let S := (v ^ u % N * A) ^ b % N
         let sess1 := { sess with S := some S }
         let M1raw := H (Astr ++ Bstr ++ toHex S)
         if M1raw = "" ∨ M1raw = "0" then
           (Except.error "M1str must not be null, empty or zero", sess1)
         else
           let M1str := stripZeros M1raw
           if M1client ≠ M1str then
             (Except.error "Bad client credentials", sess1)
           else
             let M2 := stripZeros (H (toHex A ++ M1str ++ toHex S))
             (Except.ok M2, { sess1 with state := STEP_2 }))
    | _, _, _ => (Except.error "TypeError: null field", sess)

/-- Model of server getSessionKey (src/server.js lines 124-138), identical
to the client's. -/
def serverGetSessionKey (H : String → String) (sess : ServerSession)
    (hash : Option Bool) : Option String × ServerSession :=
  match sess.S with
  | none => (none, sess)
  | some S =>
    let SS := toHex S
    let sess1 := { sess with SS := some SS }
    if hash = some false then (some SS, sess1)
    else
      match sess1.K with
      | some K => (some K, sess1)
      | none =>
        let K := H SS
        (some K, { sess1 with K := some K })

/-- Serializable server private state {I, v hex, s hex, b hex}
(src/server.js lines 73-76). -/
structure PrivateStoreState where
  I : String
  v : String
  s : String
  b : String
deriving DecidableEq, Repr

/-- Model of toPrivateStoreState (src/server.js lines 73-76). On a session
that has not completed step1 the JavaScript would call toString on null;
that crash is modelled as none. -/
def toPrivateStoreState (sess : ServerSession) : Option PrivateStoreState :=
  match sess.I, sess.v, sess.salt, sess.b with
  | some I, some v, some s, some b =>
    some { I := I, v := toHex v, s := toHex s, b := toHex b }
  | _, _, _, _ => none

/-- Model of fromPrivateStoreState (src/server.js lines 78-88): restores
identity, verifier, salt and b, recomputes B = (g^b mod N + v*k) mod N
deterministically from the stored b, and sets state to STEP_1. -/
def fromPrivateStoreState (N g k : Nat) (sess : ServerSession)
    (obj : PrivateStoreState) : ServerSession :=
  let v := fromHex obj.v
  let b := fromHex obj.b
  { sess with
    I := some obj.I
    v := some v
    salt := some (fromHex obj.s)
    b := some b
    B := some ((g ^ b % N + v * k) % N)
    state := STEP_1 }

/-- One full honest protocol run (the flow of src/test/testrunner.js):
registration generates the verifier from (salt, identity, password); the
server does step1 with that identity/salt/verifier; the client does step1
with identity/password and step2 with the salt and the issued B; the
server does step2 with the returned A and M1; the client does step3 with
the returned M2; finally both session keys are read with no argument.
Returns the first error encountered, else the two session keys. -/
def fullRun (N g k : Nat) (H : String → String)
    (identity password salt : String)
    (bRands aRands : List (String × String)) :
    Except String (Option String × Option String) :=
  match generateVerifier N g H {} salt identity password with
  | Except.error e => Except.error e
  | Except.ok (verifier, _) =>
    match serverStep1 N g k H {} identity salt verifier bRands with
    | (Except.error e, _) => Except.error e
    | (Except.ok Bstr, server1) =>
      match clientStep1 {} identity password with
      | (Except.error e, _) => Except.error e
      | (Except.ok _, client1) =>
        match clientStep2 N g k H client1 salt Bstr aRands with
        | (Except.error e, _) => Except.error e
        | (Except.ok (AA, M1), client2) =>
          match serverStep2 N g k H server1 AA M1 with
          | (Except.error e, _) => Except.error e
          | (Except.ok M2, server2) =>
            match clientStep3 H client2 M2 with
            | (Except.error e, _) => Except.error e
            | (Except.ok _, client3) =>
              Except.ok ((clientGetSessionKey H client3 none).1,
                (serverGetSessionKey H server2 none).1)

/-- Login attempt built from the same steps as fullRun, but where the
verifier is generated at registration from passwordReg while the client
logs in with passwordLogin; it stops at (and returns the outcome of)
server step2, the step claim C5 is about. -/
def loginRun (N g k : Nat) (H : String → String)
    (identity passwordReg passwordLogin salt : String)
    (bRands aRands : List (String × String)) : Except String String :=
  match generateVerifier N g H {} salt identity passwordReg with
  | Except.error e => Except.error e
  | Except.ok (verifier, _) =>
    match serverStep1 N g k H {} identity salt verifier bRands with
    | (Except.error e, _) => Except.error e
    | (Except.ok Bstr, server1) =>
      match clientStep1 {} identity passwordLogin with
      | (Except.error e, _) => Except.error e
      | (Except.ok _, client1) =>
        match clientStep2 N g k H client1 salt Bstr aRands with
        | (Except.error e, _) => Except.error e
        | (Except.ok (AA, M1), _) => (serverStep2 N g k H server1 AA M1).1

/-- First component of a generateX result, used to state concrete
counterexamples about the x value alone. -/
def xOf (r : Except String (Nat × ClientSession)) : Option Nat :=
  match r with
  | Except.ok (x, _) => some x
  | Except.error _ => none

/-- Concrete executable stand-in for SHA-256 used only to instantiate
witnesses: a short polynomial string hash rendered through toHex. Its value
is always in [1, 251], so its hex rendering is never empty and never the
string 0. -/
def testH (s : String) : String :=
  toHex (s.data.foldl (fun acc c => (acc * 31 + c.toNat) % 251) 7 + 1)

/-- The exact source text of the client factory's prototype N accessor
(src/browser.js lines 534-536). The call site of randomA
(src/browser.js line 435) reads this.a = this.randomA(this.N) and passes
this accessor function itself, not its value; inside randomA,
this.toHex(N) is Function.prototype.toString applied to it (the radix
argument is ignored), i.e. exactly this source text. -/
def clientNFunctionSource : String :=
  "function() \x7b\n        return new BigInteger(N_base10, 10);\n    \x7d"

/-- The number of random hex digits the client's randomA loop draws per
candidate: var hexLength = this.toHex(N).length with N the accessor
function, so the length of the accessor's source text. -/
def clientRandomAHexLength : Nat :=
  clientNFunctionSource.length

/-- The RFC 5054 2048-bit safe prime N that the package binds in its readme,
tests (src/test/testrunner.js) and demo servers, as a natural number. -/
def rfc5054N : Nat := 21766174458617435773191008891802753781907668374255538511144643224689886235383840957210909013086056401571399717235807266581649606472148410291413364152197364477180887395655483738115072677402235101762521901569820740293149529620419333266262073471054548368736039519702486226506248861060256971802984953561121442680157668000761429988222457090413873973970171927093992114751765168063614761119615476233422096442783117971236371647333871414335895773474667308967050807005509320424799678417036867928316761272274230314067548291133582479583061439577559347101961771406173684378522703483495337037655006751328447510550299250924469288819

instance {ε α : Type} [DecidableEq ε] [DecidableEq α] : DecidableEq (Except ε α) := fun
  | Except.error e, Except.error f =>
    decidable_of_iff (e = f) (by constructor <;> (intro h; cases h <;> rfl))
  | Except.error _, Except.ok _ => isFalse (by intro h; cases h)
  | Except.ok _, Except.error _ => isFalse (by intro h; cases h)
  | Except.ok a, Except.ok b =>
    decidable_of_iff (a = b) (by constructor <;> (intro h; cases h <;> rfl))

theorem digitsBAux_eq_digits (b : Nat) (hb : 1 < b) :
    ∀ fuel n, n ≤ fuel → digitsBAux b fuel n = Nat.digits b n := by
  intro fuel
  induction fuel with
  | zero =>
    intro n hn
    interval_cases n
    simp [digitsBAux]
  | succ f ih =>
    intro n hn
    match n with
    | 0 => simp [digitsBAux]
    | m + 1 =>
      rw [digitsBAux, Nat.digits_def' hb (Nat.succ_pos m)]
      congr 1
      apply ih
      have hlt : (m + 1) / b < m + 1 := Nat.div_lt_self (Nat.succ_pos m) hb
      omega

theorem digitsB_eq_digits (b : Nat) (hb : 1 < b) (n : Nat) :
    digitsB b n = Nat.digits b n :=
  digitsBAux_eq_digits b hb n n (Nat.le_refl n)

theorem hexVal_digitChar : ∀ d : Nat, d < 16 → hexVal? (digitChar d) = some d := by
  decide

theorem fromHexList_append_digit (l : List Char) (c : Char) (d : Nat)
    (hc : hexVal? c = some d) :
    fromHexList (l ++ [c]) = 16 * fromHexList l + d := by
  unfold fromHexList
  rw [List.foldl_append]
  simp [hc]

theorem fromHexList_rev_digits :
    ∀ ds : List Nat, (∀ d ∈ ds, d < 16) →
      fromHexList ((ds.reverse).map digitChar) = Nat.ofDigits 16 ds := by
  intro ds
  induction ds with
  | nil => intro _; simp [fromHexList, Nat.ofDigits]
  | cons d ds ih =>
    intro h
    have hd : d < 16 := h d (List.mem_cons_self d ds)
    have hds : ∀ x ∈ ds, x < 16 := fun x hx => h x (List.mem_cons_of_mem d hx)
    rw [List.reverse_cons, List.map_append]
    simp only [List.map_cons, List.map_nil]
    rw [fromHexList_append_digit _ _ _ (hexVal_digitChar d hd), ih hds,
      Nat.ofDigits_cons]
    ring

theorem fromHex_toHex (n : Nat) : fromHex (toHex n) = n := by
  by_cases h : n = 0
  · subst h; rfl
  · unfold toHex toStringB
    rw [if_neg h]
    show fromHexList _ = n
    rw [digitsB_eq_digits 16 (by norm_num) n,
      fromHexList_rev_digits _ (fun d hd => Nat.digits_lt_base (by norm_num) hd),
      Nat.ofDigits_digits]

theorem toHex_ne_empty (n : Nat) : toHex n ≠ "" := by
  by_cases h : n = 0
  · subst h; decide
  · unfold toHex toStringB
    rw [if_neg h]
    intro hcontra
    have hdig : Nat.digits 16 n ≠ [] := Nat.digits_ne_nil_iff_ne_zero.mpr h
    have : ((digitsB 16 n).reverse).map digitChar = [] := congrArg String.data hcontra
    rw [digitsB_eq_digits 16 (by norm_num) n] at this
    simp at this
    exact hdig this

theorem toHex_eq_zeroStr_iff (n : Nat) : toHex n = "0" ↔ n = 0 := by
  constructor
  · intro h
    have := fromHex_toHex n
    rw [h] at this
    simpa [fromHex, fromHexList] using this.symm
  · intro h; subst h; rfl

theorem dropWhile_head_not {p : Char → Bool} :
    ∀ (l : List Char) (c : Char), (l.dropWhile p).head? = some c → ¬ p c := by
  intro l
  induction l with
  | nil => intro c h; simp [List.dropWhile] at h
  | cons a l ih =>
    intro c h
    by_cases hp : p a
    · rw [List.dropWhile_cons_of_pos hp] at h
      exact ih c h
    · rw [List.dropWhile_cons_of_neg hp] at h
      simp at h
      subst h
      exact hp

theorem stripZeros_ne_zeroStr (s : String) : stripZeros s ≠ "0" := by
  intro h
  have hdata : (s.data.dropWhile (fun c => c = '0')) = ['0'] :=
    congrArg String.data h
  have hhead : (s.data.dropWhile (fun c => c = '0')).head? = some '0' := by
    rw [hdata]; rfl
  have := dropWhile_head_not s.data '0' hhead
  simp at this

/-- Leading digit of a nonzero value's hex rendering is not the zero digit:
toHex never has a leading zero, so stripping leading zeros leaves it alone. -/
theorem stripZeros_toHex (n : Nat) (h : n ≠ 0) : stripZeros (toHex n) = toHex n := by
  unfold toHex toStringB
  rw [if_neg h]
  unfold stripZeros
  congr 1
  show ((Thinbus.digitsB 16 n).reverse.map digitChar).dropWhile (fun c => c = '0')
      = (Thinbus.digitsB 16 n).reverse.map digitChar
  rw [digitsB_eq_digits 16 (by norm_num) n]
  have hne : Nat.digits 16 n ≠ [] := Nat.digits_ne_nil_iff_ne_zero.mpr h
  have hlast : (Nat.digits 16 n).getLast hne ≠ 0 :=
    Nat.getLast_digit_ne_zero 16 h
  have hlt : (Nat.digits 16 n).getLast hne < 16 :=
    Nat.digits_lt_base (by norm_num) (List.getLast_mem hne)
  have hdecomp : Nat.digits 16 n
      = (Nat.digits 16 n).dropLast ++ [(Nat.digits 16 n).getLast hne] :=
    (List.dropLast_append_getLast hne).symm
  rw [hdecomp, List.reverse_append]
  simp only [List.reverse_cons, List.reverse_nil, List.nil_append, List.map_cons,
    List.singleton_append]
  rw [List.dropWhile_cons_of_neg]
  have : ∀ d : Nat, d < 16 → d ≠ 0 → digitChar d ≠ '0' := by decide
  simpa using this _ hlt hlast

theorem stripZeros_toHex_ne_empty (n : Nat) (h : n ≠ 0) : stripZeros (toHex n) ≠ "" := by
  rw [stripZeros_toHex n h]
  exact toHex_ne_empty n



theorem stripZeros_ne_empty_elim (s : String) (h : stripZeros s ≠ "") :
    s ≠ "" ∧ s ≠ "0" := by
  constructor
  · intro hs; subst hs; exact h rfl
  · intro hs; subst hs; exact h rfl

theorem testH_strip_ne (t : String) : stripZeros (testH t) ≠ "" := by
  unfold testH
  exact stripZeros_toHex_ne_empty _ (Nat.succ_ne_zero _)

theorem toHex_length (n : Nat) (h : n ≠ 0) :
    (toHex n).length = Nat.log 16 n + 1 := by
  unfold toHex toStringB
  rw [if_neg h]
  show (((digitsB 16 n).reverse).map digitChar).length = Nat.log 16 n + 1
  rw [List.length_map, List.length_reverse, digitsB_eq_digits 16 (by norm_num) n,
    Nat.digits_len 16 n (by norm_num) h]

/-- Core SRP-6a algebra: with v = g^x mod N, A = g^a mod N and
B = (g^b mod N + v*k) mod N, the server shared secret
(v^u mod N * A)^b mod N equals the client shared secret
(B - k*g^x)^(a + u*x) mod N as computed by computeSessionKey, for every
scrambling value u and every multiplier k. -/
theorem sessionKey_agree (N g k x u a b : Nat) (hN : 0 < N) :
    ((g ^ x % N) ^ u % N * (g ^ a % N)) ^ b % N
      = computeSessionKey N g k x u a ((g ^ b % N + g ^ x % N * k) % N) := by
  have hNZ : (N : Int) ≠ 0 := Int.natCast_ne_zero.mpr hN.ne'
  have hmodeq : ∀ m : Nat, ((m % N : Nat) : Int) ≡ (m : Int) [ZMOD (N : Int)] := by
    intro m
    rw [Int.natCast_mod]
    exact Int.emod_emod_of_dvd _ dvd_rfl
  unfold computeSessionKey
  set c : Int := ((((g ^ b % N + g ^ x % N * k) % N : Nat) : Int)
    - ((g ^ x % N * k : Nat) : Int)) % (N : Int) with hc
  have hc_nonneg : 0 ≤ c := Int.emod_nonneg _ hNZ
  have hbase : c ≡ (g : Int) ^ b [ZMOD (N : Int)] := by
    have h2 : ((g ^ b % N : Nat) : Int) ≡ (g : Int) ^ b [ZMOD (N : Int)] := by
      have h0 := hmodeq (g ^ b)
      push_cast at h0
      push_cast
      exact h0
    have h1 : ((((g ^ b % N + g ^ x % N * k) % N : Nat)) : Int)
        ≡ ((g : Int) ^ b) + ((g ^ x % N * k : Nat) : Int) [ZMOD (N : Int)] := by
      refine (hmodeq _).trans ?_
      calc ((g ^ b % N + g ^ x % N * k : Nat) : Int)
          = ((g ^ b % N : Nat) : Int) + ((g ^ x % N * k : Nat) : Int) := by push_cast; ring
        _ ≡ (g : Int) ^ b + ((g ^ x % N * k : Nat) : Int) [ZMOD (N : Int)] :=
            h2.add_right _
    have h3 := h1.sub_right ((g ^ x % N * k : Nat) : Int)
    rw [add_sub_cancel_right] at h3
    calc c ≡ (((g ^ b % N + g ^ x % N * k) % N : Nat) : Int)
          - ((g ^ x % N * k : Nat) : Int) [ZMOD (N : Int)] :=
        Int.emod_emod_of_dvd _ dvd_rfl
      _ ≡ (g : Int) ^ b [ZMOD (N : Int)] := h3
  have hx : ((g ^ x % N : Nat) : Int) ≡ (g : Int) ^ x [ZMOD (N : Int)] := by
    have h0 := hmodeq (g ^ x)
    push_cast at h0
    push_cast
    exact h0
  have ha : ((g ^ a % N : Nat) : Int) ≡ (g : Int) ^ a [ZMOD (N : Int)] := by
    have h0 := hmodeq (g ^ a)
    push_cast at h0
    push_cast
    exact h0
  have hprod : (((g ^ x % N) ^ u % N * (g ^ a % N) : Nat) : Int)
      ≡ (g : Int) ^ (x * u + a) [ZMOD (N : Int)] := by
    have hvu : (((g ^ x % N) ^ u % N : Nat) : Int) ≡ ((g : Int) ^ x) ^ u [ZMOD (N : Int)] := by
      refine (hmodeq _).trans ?_
      calc (((g ^ x % N) ^ u : Nat) : Int) = ((g ^ x % N : Nat) : Int) ^ u := by
            push_cast; ring
        _ ≡ ((g : Int) ^ x) ^ u [ZMOD (N : Int)] := hx.pow u
    calc (((g ^ x % N) ^ u % N * (g ^ a % N) : Nat) : Int)
        = (((g ^ x % N) ^ u % N : Nat) : Int) * ((g ^ a % N : Nat) : Int) := by
          push_cast; ring
      _ ≡ ((g : Int) ^ x) ^ u * (g : Int) ^ a [ZMOD (N : Int)] := hvu.mul ha
      _ = (g : Int) ^ (x * u + a) := by ring
  have hfin : ((((g ^ x % N) ^ u % N * (g ^ a % N)) ^ b : Nat) : Int)
      ≡ ((c.toNat ^ (u * x + a) : Nat) : Int) [ZMOD (N : Int)] := by
    have hL : ((((g ^ x % N) ^ u % N * (g ^ a % N)) ^ b : Nat) : Int)
        ≡ (g : Int) ^ ((x * u + a) * b) [ZMOD (N : Int)] := by
      calc ((((g ^ x % N) ^ u % N * (g ^ a % N)) ^ b : Nat) : Int)
          = (((g ^ x % N) ^ u % N * (g ^ a % N) : Nat) : Int) ^ b := by push_cast; ring
        _ ≡ ((g : Int) ^ (x * u + a)) ^ b [ZMOD (N : Int)] := hprod.pow b
        _ = (g : Int) ^ ((x * u + a) * b) := by rw [← pow_mul]
    have hR : ((c.toNat ^ (u * x + a) : Nat) : Int)
        ≡ (g : Int) ^ (b * (u * x + a)) [ZMOD (N : Int)] := by
      calc ((c.toNat ^ (u * x + a) : Nat) : Int)
          = c ^ (u * x + a) := by
            push_cast [Int.toNat_of_nonneg hc_nonneg]
            rfl
        _ ≡ ((g : Int) ^ b) ^ (u * x + a) [ZMOD (N : Int)] := hbase.pow _
        _ = (g : Int) ^ (b * (u * x + a)) := by rw [← pow_mul]
    have hexp : (x * u + a) * b = b * (u * x + a) := by ring
    rw [hexp] at hL
    exact hL.trans hR.symm
  show ((g ^ x % N) ^ u % N * (g ^ a % N)) ^ b % N = c.toNat ^ (u * x + a) % N
  have hcast : ((((g ^ x % N) ^ u % N * (g ^ a % N)) ^ b % N : Nat) : Int)
      = ((c.toNat ^ (u * x + a) % N : Nat) : Int) := by
    rw [Int.natCast_mod, Int.natCast_mod]
    exact hfin
  exact_mod_cast hcast

theorem generateX_ok (N : Nat) (H : String → String) (sess : ClientSession)
    (salt identity password : String)
    (hs : salt ≠ "" ∧ salt ≠ "0") (hI : identity ≠ "" ∧ identity ≠ "0")
    (hP : password ≠ "" ∧ password ≠ "0") :
    generateX N H sess salt identity password
      = Except.ok (clientX N H salt identity password,
          { sess with
            salt := some salt
            x := some (clientX N H salt identity password) }) := by
  unfold generateX clientX
  rw [if_neg (by simp [hs.1, hs.2]), if_neg (by simp [hI.1, hI.2]),
    if_neg (by simp [hP.1, hP.2])]

theorem clientStep1_ok (sess : ClientSession) (identity password : String)
    (hI : identity ≠ "" ∧ identity ≠ "0") (hP : password ≠ "" ∧ password ≠ "0")
    (hstate : sess.state = INIT) :
    clientStep1 sess identity password
      = (Except.ok (), { sess with
          I := some identity
          P := some password
          state := STEP_1 }) := by
  unfold clientStep1
  rw [if_neg (by simp [hI.1, hI.2]), if_neg (by simp [hP.1, hP.2])]
  simp [hstate]

theorem serverStep1_ok (N g k : Nat) (H : String → String) (sess : ServerSession)
    (identity salt verifier : String) (rands : List (String × String)) (b : Nat)
    (hstate : sess.state = INIT)
    (hI : identity ≠ "" ∧ identity ≠ "0") (hs : salt ≠ "" ∧ salt ≠ "0")
    (hv : verifier ≠ "" ∧ verifier ≠ "0")
    (hb : randomB H N identity (toDec (fromHex salt)) rands = some b) :
    serverStep1 N g k H sess identity salt verifier rands
      = (Except.ok (toHex ((g ^ b % N + fromHex verifier * k) % N)),
         { sess with
           I := some identity
           v := some (fromHex verifier)
           salt := some (fromHex salt)
           state := STEP_1
           b := some b
           B := some ((g ^ b % N + fromHex verifier * k) % N) }) := by
  unfold serverStep1
  rw [if_neg (by simp [hstate]), if_neg (by simp [hI.1, hI.2]),
    if_neg (by simp [hs.1, hs.2]), if_neg (by simp [hv.1, hv.2])]
  simp only [hb]

theorem computeU_ok (H : String → String) (Astr Bstr : String)
    (hA : Astr ≠ "" ∧ Astr ≠ "0") (hB : Bstr ≠ "" ∧ Bstr ≠ "0")
    (hu : fromHex (H (Astr ++ Bstr)) ≠ 0) :
    computeU H Astr Bstr = Except.ok (fromHex (H (Astr ++ Bstr))) := by
  unfold computeU
  rw [if_neg (by simp [hA.1, hA.2]), if_neg (by simp [hB.1, hB.2]), if_neg hu]

theorem clientStep2_ok (N g k : Nat) (H : String → String) (sess : ClientSession)
    (s BB : String) (rands : List (String × String)) (I P : String) (a : Nat)
    (hstate : sess.state = STEP_1) (hI : sess.I = some I) (hP : sess.P = some P)
    (hs : s ≠ "" ∧ s ≠ "0") (hBB : BB ≠ "" ∧ BB ≠ "0")
    (hBmod : fromHex BB % N ≠ 0)
    (hIne : I ≠ "" ∧ I ≠ "0") (hPne : P ≠ "" ∧ P ≠ "0")
    (ha : randomA H I s rands = some a)
    (hA : g ^ a % N ≠ 0)
    (hu : fromHex (H (toHex (g ^ a % N) ++ BB)) ≠ 0)
    (hM1 : stripZeros (H (toHex (g ^ a % N) ++ BB ++
      toHex (computeSessionKey N g k (clientX N H s I P)
        (fromHex (H (toHex (g ^ a % N) ++ BB))) a (fromHex BB)))) ≠ "") :
    clientStep2 N g k H sess s BB rands
      = (Except.ok (toHex (g ^ a % N),
          stripZeros (H (toHex (g ^ a % N) ++ BB ++
            toHex (computeSessionKey N g k (clientX N H s I P)
              (fromHex (H (toHex (g ^ a % N) ++ BB))) a (fromHex BB))))),
         { sess with
           B := some (fromHex BB)
           salt := some s
           x := some (clientX N H s I P)
           P := none
           a := some a
           A := some (g ^ a % N)
           u := some (fromHex (H (toHex (g ^ a % N) ++ BB)))
           S := some (computeSessionKey N g k (clientX N H s I P)
             (fromHex (H (toHex (g ^ a % N) ++ BB))) a (fromHex BB))
           M1str := some (stripZeros (H (toHex (g ^ a % N) ++ BB ++
             toHex (computeSessionKey N g k (clientX N H s I P)
               (fromHex (H (toHex (g ^ a % N) ++ BB))) a (fromHex BB)))))
           state := STEP_2 }) := by
  have hM1e := stripZeros_ne_empty_elim _ hM1
  have hAhex : toHex (g ^ a % N) ≠ "" ∧ toHex (g ^ a % N) ≠ "0" :=
    ⟨toHex_ne_empty _, by rw [Ne, toHex_eq_zeroStr_iff]; exact hA⟩
  unfold clientStep2
  rw [if_neg (by simp [hs.1, hs.2]), if_neg (by simp [hBB.1, hBB.2]),
    if_neg (by simp [hstate])]
  simp only [hI, hP, if_neg hBmod,
    generateX_ok N H _ s I P hs hIne hPne, ha,
    computeU_ok H (toHex (g ^ a % N)) BB hAhex hBB hu,
    hM1e.1, hM1e.2]
  simp [hM1e.1, hM1e.2]

theorem serverStep2_ok (N g k : Nat) (H : String → String) (sess : ServerSession)
    (Astr M1client : String) (B v b : Nat)
    (hstate : sess.state = STEP_1) (hB : sess.B = some B) (hv : sess.v = some v)
    (hbb : sess.b = some b)
    (hAstr : Astr ≠ "" ∧ Astr ≠ "0") (hBne : B ≠ 0)
    (hu : fromHex (H (Astr ++ toHex B)) ≠ 0)
    (hM1 : stripZeros (H (Astr ++ toHex B ++
      toHex ((v ^ fromHex (H (Astr ++ toHex B)) % N * fromHex Astr) ^ b % N))) ≠ "")
    (hmatch : M1client = stripZeros (H (Astr ++ toHex B ++
      toHex ((v ^ fromHex (H (Astr ++ toHex B)) % N * fromHex Astr) ^ b % N)))) :
    serverStep2 N g k H sess Astr M1client
      = (Except.ok (stripZeros (H (toHex (fromHex Astr) ++ M1client ++
          toHex ((v ^ fromHex (H (Astr ++ toHex B)) % N * fromHex Astr) ^ b % N)))),
         { sess with
           S := some ((v ^ fromHex (H (Astr ++ toHex B)) % N * fromHex Astr) ^ b % N)
           state := STEP_2 }) := by
  have hM1e := stripZeros_ne_empty_elim _ hM1
  have hM1c : M1client ≠ "" ∧ M1client ≠ "0" := by
    rw [hmatch]
    exact ⟨hM1, stripZeros_ne_zeroStr _⟩
  have hBhex : toHex B ≠ "" ∧ toHex B ≠ "0" :=
    ⟨toHex_ne_empty _, by rw [Ne, toHex_eq_zeroStr_iff]; exact hBne⟩
  unfold serverStep2
  rw [if_neg (by simp [hstate]), if_neg (by simp [hAstr.1, hAstr.2]),
    if_neg (by simp [hM1c.1, hM1c.2])]
  simp only [hB, hv, hbb, computeU_ok H Astr (toHex B) hAstr hBhex hu]
  simp [hM1e.1, hM1e.2, hmatch]

theorem serverStep2_badcreds (N g k : Nat) (H : String → String) (sess : ServerSession)
    (Astr M1client : String) (B v b : Nat)
    (hstate : sess.state = STEP_1) (hB : sess.B = some B) (hv : sess.v = some v)
    (hbb : sess.b = some b)
    (hAstr : Astr ≠ "" ∧ Astr ≠ "0") (hM1c : M1client ≠ "" ∧ M1client ≠ "0")
    (hBne : B ≠ 0)
    (hu : fromHex (H (Astr ++ toHex B)) ≠ 0)
    (hM1 : stripZeros (H (Astr ++ toHex B ++
      toHex ((v ^ fromHex (H (Astr ++ toHex B)) % N * fromHex Astr) ^ b % N))) ≠ "")
    (hmismatch : M1client ≠ stripZeros (H (Astr ++ toHex B ++
      toHex ((v ^ fromHex (H (Astr ++ toHex B)) % N * fromHex Astr) ^ b % N)))) :
    serverStep2 N g k H sess Astr M1client
      = (Except.error "Bad client credentials",
         { sess with
           S := some ((v ^ fromHex (H (Astr ++ toHex B)) % N * fromHex Astr) ^ b % N) }) := by
  have hM1e := stripZeros_ne_empty_elim _ hM1
  have hBhex : toHex B ≠ "" ∧ toHex B ≠ "0" :=
    ⟨toHex_ne_empty _, by rw [Ne, toHex_eq_zeroStr_iff]; exact hBne⟩
  unfold serverStep2
  rw [if_neg (by simp [hstate]), if_neg (by simp [hAstr.1, hAstr.2]),
    if_neg (by simp [hM1c.1, hM1c.2])]
  simp only [hB, hv, hbb, computeU_ok H Astr (toHex B) hAstr hBhex hu]
  simp [hM1e.1, hM1e.2, hmismatch]

theorem clientStep3_ok (H : String → String) (sess : ClientSession)
    (M2 : String) (A S : Nat) (M1 : String)
    (hstate : sess.state = STEP_2) (hA : sess.A = some A)
    (hM1 : sess.M1str = some M1) (hS : sess.S = some S)
    (hM2 : M2 ≠ "" ∧ M2 ≠ "0")
    (hmatch : stripZeros (H (toHex A ++ M1 ++ toHex S)) = M2) :
    clientStep3 H sess M2 = (Except.ok true, { sess with state := STEP_3 }) := by
  unfold clientStep3
  rw [if_neg (by simp [hM2.1, hM2.2]), if_neg (by simp [hstate])]
  simp [hA, hM1, hS, hmatch]

theorem clientGetSessionKey_fresh (H : String → String) (sess : ClientSession)
    (S : Nat) (hS : sess.S = some S) (hK : sess.K = none) :
    (clientGetSessionKey H sess none).1 = some (H (toHex S)) := by
  unfold clientGetSessionKey
  simp [hS, hK]

theorem serverGetSessionKey_fresh (H : String → String) (sess : ServerSession)
    (S : Nat) (hS : sess.S = some S) (hK : sess.K = none) :
    (serverGetSessionKey H sess none).1 = some (H (toHex S)) := by
  unfold serverGetSessionKey
  simp [hS, hK]

theorem generateVerifier_ok (N g : Nat) (H : String → String) (sess : ClientSession)
    (salt identity password : String)
    (hs : salt ≠ "" ∧ salt ≠ "0") (hI : identity ≠ "" ∧ identity ≠ "0")
    (hP : password ≠ "" ∧ password ≠ "0") :
    generateVerifier N g H sess salt identity password
      = Except.ok (toHex (g ^ clientX N H salt identity password % N),
          { sess with
            salt := some salt
            x := some (clientX N H salt identity password)
            v := some (g ^ clientX N H salt identity password % N) }) := by
  unfold generateVerifier
  rw [generateX_ok N H sess salt identity password hs hI hP]

set_option maxHeartbeats 1000000 in
/-- Claim C1: for every identity, password and salt, if the verifier is
generated from those same inputs via generateVerifier and a full correct
protocol run is executed (server.step1 with that identity/salt/verifier,
client.step1 with that identity/password, client.step2 with the salt and
the returned B, server.step2 with the returned A and M1, client.step3 with
the returned M2), every step succeeds and afterwards client.getSessionKey()
equals server.getSessionKey(). The hypotheses name the protocol-fatal
degeneracies the code itself treats as fatal errors (verifier, B or A
congruent to zero, scrambling value u = 0, an all-zero hash, or the
random loops not producing a value), none of which occur with the real
SHA-256 hash and a safe prime group. -/
theorem claim1_full_run_session_keys_match (N g k : Nat) (H : String → String)
    (identity password salt : String)
    (bRands aRands : List (String × String)) (a b : Nat)
    (hN : 0 < N)
    (hH : ∀ t, stripZeros (H t) ≠ "")
    (hI : identity ≠ "" ∧ identity ≠ "0")
    (hP : password ≠ "" ∧ password ≠ "0")
    (hs : salt ≠ "" ∧ salt ≠ "0")
    (hv : g ^ clientX N H salt identity password % N ≠ 0)
    (hb : randomB H N identity (toDec (fromHex salt)) bRands = some b)
    (ha : randomA H identity salt aRands = some a)
    (hB : (g ^ b % N + g ^ clientX N H salt identity password % N * k) % N ≠ 0)
    (hA : g ^ a % N ≠ 0)
    (hu : fromHex (H (toHex (g ^ a % N) ++
      toHex ((g ^ b % N + g ^ clientX N H salt identity password % N * k) % N))) ≠ 0) :
    ∃ key, fullRun N g k H identity password salt bRands aRands
      = Except.ok (some key, some key) := by
  have hvhex : toHex (g ^ (clientX N H salt identity password) % N) ≠ "" ∧ toHex (g ^ (clientX N H salt identity password) % N) ≠ "0" :=
    ⟨toHex_ne_empty _, by rw [Ne, toHex_eq_zeroStr_iff]; exact hv⟩
  have hBvhex : toHex ((g ^ b % N + (g ^ (clientX N H salt identity password) % N) * k) % N) ≠ "" ∧ toHex ((g ^ b % N + (g ^ (clientX N H salt identity password) % N) * k) % N) ≠ "0" :=
    ⟨toHex_ne_empty _, by rw [Ne, toHex_eq_zeroStr_iff]; exact hB⟩
  have hAhex : toHex (g ^ a % N) ≠ "" ∧ toHex (g ^ a % N) ≠ "0" :=
    ⟨toHex_ne_empty _, by rw [Ne, toHex_eq_zeroStr_iff]; exact hA⟩
  have hBmod : fromHex (toHex ((g ^ b % N + (g ^ (clientX N H salt identity password) % N) * k) % N)) % N ≠ 0 := by
    rw [fromHex_toHex, Nat.mod_eq_of_lt (Nat.mod_lt _ hN)]
    exact hB
  have h1 := generateVerifier_ok N g H {} salt identity password hs hI hP
  have h2 := serverStep1_ok N g k H {} identity salt
    (toHex (g ^ (clientX N H salt identity password) % N)) bRands b rfl hI hs hvhex hb
  simp only [fromHex_toHex] at h2
  have h3 := clientStep1_ok {} identity password hI hP rfl
  have h4 := clientStep2_ok N g k H
    ⟨STEP_1, none, none, some identity, some password, none, none, none, none,
      none, none, none, none, none⟩
    salt (toHex ((g ^ b % N + (g ^ (clientX N H salt identity password) % N) * k) % N)) aRands identity password a rfl rfl rfl hs hBvhex hBmod
    hI hP ha hA hu (hH _)
  simp only [fromHex_toHex] at h4
  have hSagree := sessionKey_agree N g k (clientX N H salt identity password) (fromHex (H (toHex (g ^ a % N) ++ toHex ((g ^ b % N + (g ^ (clientX N H salt identity password) % N) * k) % N)))) a b hN
  have h5 := serverStep2_ok N g k H
    ⟨STEP_1, some (g ^ (clientX N H salt identity password) % N), some identity, some (fromHex salt), some b,
      some ((g ^ b % N + (g ^ (clientX N H salt identity password) % N) * k) % N), none, none, none⟩
    (toHex (g ^ a % N)) (stripZeros (H (toHex (g ^ a % N) ++ toHex ((g ^ b % N + (g ^ (clientX N H salt identity password) % N) * k) % N) ++ toHex (computeSessionKey N g k (clientX N H salt identity password) (fromHex (H (toHex (g ^ a % N) ++ toHex ((g ^ b % N + (g ^ (clientX N H salt identity password) % N) * k) % N)))) a ((g ^ b % N + (g ^ (clientX N H salt identity password) % N) * k) % N))))) ((g ^ b % N + (g ^ (clientX N H salt identity password) % N) * k) % N) (g ^ (clientX N H salt identity password) % N) b rfl rfl rfl rfl hAhex hB hu (hH _)
    (by simp only [fromHex_toHex, hSagree])
  simp only [fromHex_toHex, hSagree] at h5
  have h6 := clientStep3_ok H
    ⟨STEP_2, some (clientX N H salt identity password), none, some identity, none, some salt, some ((g ^ b % N + (g ^ (clientX N H salt identity password) % N) * k) % N),
      some (g ^ a % N), some a, some (fromHex (H (toHex (g ^ a % N) ++ toHex ((g ^ b % N + (g ^ (clientX N H salt identity password) % N) * k) % N)))), some (computeSessionKey N g k (clientX N H salt identity password) (fromHex (H (toHex (g ^ a % N) ++ toHex ((g ^ b % N + (g ^ (clientX N H salt identity password) % N) * k) % N)))) a ((g ^ b % N + (g ^ (clientX N H salt identity password) % N) * k) % N)), none, none, some (stripZeros (H (toHex (g ^ a % N) ++ toHex ((g ^ b % N + (g ^ (clientX N H salt identity password) % N) * k) % N) ++ toHex (computeSessionKey N g k (clientX N H salt identity password) (fromHex (H (toHex (g ^ a % N) ++ toHex ((g ^ b % N + (g ^ (clientX N H salt identity password) % N) * k) % N)))) a ((g ^ b % N + (g ^ (clientX N H salt identity password) % N) * k) % N)))))⟩
    (stripZeros (H (toHex (g ^ a % N) ++ (stripZeros (H (toHex (g ^ a % N) ++ toHex ((g ^ b % N + (g ^ (clientX N H salt identity password) % N) * k) % N) ++ toHex (computeSessionKey N g k (clientX N H salt identity password) (fromHex (H (toHex (g ^ a % N) ++ toHex ((g ^ b % N + (g ^ (clientX N H salt identity password) % N) * k) % N)))) a ((g ^ b % N + (g ^ (clientX N H salt identity password) % N) * k) % N))))) ++ toHex (computeSessionKey N g k (clientX N H salt identity password) (fromHex (H (toHex (g ^ a % N) ++ toHex ((g ^ b % N + (g ^ (clientX N H salt identity password) % N) * k) % N)))) a ((g ^ b % N + (g ^ (clientX N H salt identity password) % N) * k) % N))))) (g ^ a % N) (computeSessionKey N g k (clientX N H salt identity password) (fromHex (H (toHex (g ^ a % N) ++ toHex ((g ^ b % N + (g ^ (clientX N H salt identity password) % N) * k) % N)))) a ((g ^ b % N + (g ^ (clientX N H salt identity password) % N) * k) % N)) (stripZeros (H (toHex (g ^ a % N) ++ toHex ((g ^ b % N + (g ^ (clientX N H salt identity password) % N) * k) % N) ++ toHex (computeSessionKey N g k (clientX N H salt identity password) (fromHex (H (toHex (g ^ a % N) ++ toHex ((g ^ b % N + (g ^ (clientX N H salt identity password) % N) * k) % N)))) a ((g ^ b % N + (g ^ (clientX N H salt identity password) % N) * k) % N))))) rfl rfl rfl rfl ⟨hH _, stripZeros_ne_zeroStr _⟩ rfl
  have h7 := clientGetSessionKey_fresh H
    ⟨STEP_3, some (clientX N H salt identity password), none, some identity, none, some salt, some ((g ^ b % N + (g ^ (clientX N H salt identity password) % N) * k) % N),
      some (g ^ a % N), some a, some (fromHex (H (toHex (g ^ a % N) ++ toHex ((g ^ b % N + (g ^ (clientX N H salt identity password) % N) * k) % N)))), some (computeSessionKey N g k (clientX N H salt identity password) (fromHex (H (toHex (g ^ a % N) ++ toHex ((g ^ b % N + (g ^ (clientX N H salt identity password) % N) * k) % N)))) a ((g ^ b % N + (g ^ (clientX N H salt identity password) % N) * k) % N)), none, none, some (stripZeros (H (toHex (g ^ a % N) ++ toHex ((g ^ b % N + (g ^ (clientX N H salt identity password) % N) * k) % N) ++ toHex (computeSessionKey N g k (clientX N H salt identity password) (fromHex (H (toHex (g ^ a % N) ++ toHex ((g ^ b % N + (g ^ (clientX N H salt identity password) % N) * k) % N)))) a ((g ^ b % N + (g ^ (clientX N H salt identity password) % N) * k) % N)))))⟩
    (computeSessionKey N g k (clientX N H salt identity password) (fromHex (H (toHex (g ^ a % N) ++ toHex ((g ^ b % N + (g ^ (clientX N H salt identity password) % N) * k) % N)))) a ((g ^ b % N + (g ^ (clientX N H salt identity password) % N) * k) % N)) rfl rfl
  have h8 := serverGetSessionKey_fresh H
    ⟨STEP_2, some (g ^ (clientX N H salt identity password) % N), some identity, some (fromHex salt), some b,
      some ((g ^ b % N + (g ^ (clientX N H salt identity password) % N) * k) % N), some (computeSessionKey N g k (clientX N H salt identity password) (fromHex (H (toHex (g ^ a % N) ++ toHex ((g ^ b % N + (g ^ (clientX N H salt identity password) % N) * k) % N)))) a ((g ^ b % N + (g ^ (clientX N H salt identity password) % N) * k) % N)), none, none⟩
    (computeSessionKey N g k (clientX N H salt identity password) (fromHex (H (toHex (g ^ a % N) ++ toHex ((g ^ b % N + (g ^ (clientX N H salt identity password) % N) * k) % N)))) a ((g ^ b % N + (g ^ (clientX N H salt identity password) % N) * k) % N)) rfl rfl
  unfold fullRun
  rw [h1]
  dsimp only []
  rw [h2]
  dsimp only []
  rw [h3]
  dsimp only []
  rw [h4]
  dsimp only []
  rw [h5]
  dsimp only []
  rw [h6]
  dsimp only []
  rw [h7, h8]
  exact ⟨_, rfl⟩

/-- Witness for claim C1 at the concrete toy group N = 23, g = 5, k = 3 with
the executable hash testH: the run succeeds and both session keys agree. -/
theorem claim1_full_run_session_keys_match_witness :
    ∃ key, fullRun 23 5 3 testH "alice" "pw" "1a" [("0f", "7")] [("0c", "9")]
      = Except.ok (some key, some key) :=
  claim1_full_run_session_keys_match 23 5 3 testH "alice" "pw" "1a" [("0f", "7")] [("0c", "9")] 112 12
    (by norm_num) testH_strip_ne (by decide) (by decide) (by decide)
    (by decide) (by decide) (by decide) (by decide) (by decide) (by decide)

/-- Claim C9: when client.step1 is invoked with non-empty arguments on a
session whose state is not INIT, it raises the state error, but the
session's identity and password fields have already been overwritten with
the new arguments before the error is raised, while the state field itself
is unchanged: the failing call is not atomic with respect to the session's
fields. -/
theorem claim9_step1_overwrites_before_state_error
    (sess : ClientSession) (identity password : String)
    (hI : identity ≠ "" ∧ identity ≠ "0") (hP : password ≠ "" ∧ password ≠ "0")
    (hstate : sess.state ≠ INIT) :
    clientStep1 sess identity password
      = (Except.error "IllegalStateException not in state INIT",
         { sess with I := some identity, P := some password }) := by
  unfold clientStep1
  rw [if_neg (by simp [hI.1, hI.2]), if_neg (by simp [hP.1, hP.2])]
  simp [hstate]

theorem claim9_step1_overwrites_before_state_error_witness :
    clientStep1
        ⟨STEP_1, none, none, some "alice", some "pw", none, none, none, none,
          none, none, none, none, none⟩ "bob" "pw2"
      = (Except.error "IllegalStateException not in state INIT",
         ⟨STEP_1, none, none, some "bob", some "pw2", none, none, none, none,
           none, none, none, none, none⟩) :=
  claim9_step1_overwrites_before_state_error _ "bob" "pw2" (by decide) (by decide) (by decide)

/-- Claim C7 (amended): for every hex string B_hex that passes the argument
validation (i.e. is neither "" nor the literal "0" -- those raise the
ValidationError "BB must not be null, empty or zero" instead) and whose
value satisfies B mod N = 0, client.step2 called in state STEP_1 with a
valid salt raises the ProtocolError bad server public value and leaves the
state at STEP_1, not STEP_2. -/
theorem claim7_bad_server_public_value_rejected (N g k : Nat) (H : String → String) (sess : ClientSession)
    (s BB : String) (rands : List (String × String))
    (hstate : sess.state = STEP_1)
    (hs : s ≠ "" ∧ s ≠ "0") (hBB : BB ≠ "" ∧ BB ≠ "0")
    (hBmod : fromHex BB % N = 0) :
    (clientStep2 N g k H sess s BB rands).1
        = Except.error "SRP6Exception bad server public value 'B' as B == 0 (mod N)" ∧
      (clientStep2 N g k H sess s BB rands).2.state = STEP_1 := by
  unfold clientStep2
  rw [if_neg (by simp [hs.1, hs.2]), if_neg (by simp [hBB.1, hBB.2]),
    if_neg (by simp [hstate])]
  simp [hBmod, hstate]

theorem claim7_bad_server_public_value_rejected_witness :
    (clientStep2 23 5 3 testH
        ⟨STEP_1, none, none, some "alice", some "pw", none, none, none, none,
          none, none, none, none, none⟩ "1a" "00" []).1
        = Except.error "SRP6Exception bad server public value 'B' as B == 0 (mod N)" ∧
      (clientStep2 23 5 3 testH
        ⟨STEP_1, none, none, some "alice", some "pw", none, none, none, none,
          none, none, none, none, none⟩ "1a" "00" []).2.state = STEP_1 :=
  claim7_bad_server_public_value_rejected 23 5 3 testH _ "1a" "00" [] (by decide) (by decide) (by decide) (by decide)

/-- Counterexample to claim C7 as stated: the hex string "0" has value
0 ≡ 0 (mod 23) and is passed in state STEP_1 with a non-empty salt, yet
step2 raises the argument-validation error, not the bad-server-public-value
ProtocolError, because this.check(BB) fires first. -/
theorem claim7_zero_Bhex_counterexample :
    fromHex "0" % 23 = 0 ∧
      (clientStep2 23 5 3 testH
        ⟨STEP_1, none, none, some "alice", some "pw", none, none, none, none,
          none, none, none, none, none⟩ "1a" "0" []).1
        = Except.error "BB must not be null, empty or zero" ∧
      (clientStep2 23 5 3 testH
        ⟨STEP_1, none, none, some "alice", some "pw", none, none, none, none,
          none, none, none, none, none⟩ "1a" "0" []).1
        ≠ Except.error "SRP6Exception bad server public value 'B' as B == 0 (mod N)" := by
  refine ⟨by decide, by decide, by decide⟩

/-- Claim C6: invoking step2 before step1 on either session type, or step1
twice, raises an IllegalStateException-style StateError rather than
performing the step; each step method requires its exact prior state
(client: step1 in INIT, step2 in STEP_1, step3 in STEP_2; server: step1 in
INIT, step2 in STEP_1). On the failing call the state is unchanged (for
client step1 only the state is asserted unchanged, since C9 records that
its identity/password fields are mutated; client step1/2/3 check their
arguments before the state, so non-degenerate arguments are assumed there;
the server methods check state first). -/
theorem claim6_state_machine_guards :
    (∀ (sess : ClientSession) (identity password : String),
      identity ≠ "" → identity ≠ "0" → password ≠ "" → password ≠ "0" →
      sess.state ≠ INIT →
      (clientStep1 sess identity password).1
          = Except.error "IllegalStateException not in state INIT" ∧
        (clientStep1 sess identity password).2.state = sess.state) ∧
    (∀ (N g k : Nat) (H : String → String) (sess : ClientSession) (s BB : String)
      (rands : List (String × String)),
      s ≠ "" → s ≠ "0" → BB ≠ "" → BB ≠ "0" → sess.state ≠ STEP_1 →
      (clientStep2 N g k H sess s BB rands).1
          = Except.error "IllegalStateException not in state STEP_1" ∧
        (clientStep2 N g k H sess s BB rands).2 = sess) ∧
    (∀ (H : String → String) (sess : ClientSession) (M2 : String),
      M2 ≠ "" → M2 ≠ "0" → sess.state ≠ STEP_2 →
      (clientStep3 H sess M2).1
          = Except.error
            "IllegalStateException State violation: Session must be in STEP_2 state" ∧
        (clientStep3 H sess M2).2 = sess) ∧
    (∀ (N g k : Nat) (H : String → String) (sess : ServerSession)
      (identity salt verifier : String) (rands : List (String × String)),
      sess.state ≠ INIT →
      (serverStep1 N g k H sess identity salt verifier rands).1
          = Except.error "IllegalStateException not in state INIT" ∧
        (serverStep1 N g k H sess identity salt verifier rands).2 = sess) ∧
    (∀ (N g k : Nat) (H : String → String) (sess : ServerSession)
      (Astr M1client : String),
      sess.state ≠ STEP_1 →
      (serverStep2 N g k H sess Astr M1client).1
          = Except.error "IllegalStateException not in state STEP_1" ∧
        (serverStep2 N g k H sess Astr M1client).2 = sess) := by
  refine ⟨?_, ?_, ?_, ?_, ?_⟩
  · intro sess identity password h1 h2 h3 h4 h5
    unfold clientStep1
    rw [if_neg (by simp [h1, h2]), if_neg (by simp [h3, h4])]
    simp [h5]
  · intro N g k H sess s BB rands h1 h2 h3 h4 h5
    unfold clientStep2
    rw [if_neg (by simp [h1, h2]), if_neg (by simp [h3, h4]), if_pos h5]
    exact ⟨rfl, rfl⟩
  · intro H sess M2 h1 h2 h3
    unfold clientStep3
    rw [if_neg (by simp [h1, h2]), if_pos h3]
    exact ⟨rfl, rfl⟩
  · intro N g k H sess identity salt verifier rands h1
    unfold serverStep1
    rw [if_pos h1]
    exact ⟨rfl, rfl⟩
  · intro N g k H sess Astr M1client h1
    unfold serverStep2
    rw [if_pos h1]
    exact ⟨rfl, rfl⟩

theorem claim6_state_machine_guards_witness :
    ((clientStep1
        ⟨STEP_1, none, none, some "alice", some "pw", none, none, none, none,
          none, none, none, none, none⟩ "alice" "pw").1
      = Except.error "IllegalStateException not in state INIT") ∧
    ((clientStep2 23 5 3 testH {} "1a" "13" []).1
      = Except.error "IllegalStateException not in state STEP_1") ∧
    ((clientStep3 testH {} "ab").1
      = Except.error
        "IllegalStateException State violation: Session must be in STEP_2 state") ∧
    ((serverStep1 23 5 3 testH
        ⟨STEP_1, none, none, none, none, none, none, none, none⟩
        "alice" "1a" "8" []).1
      = Except.error "IllegalStateException not in state INIT") ∧
    ((serverStep2 23 5 3 testH {} "2" "ab").1
      = Except.error "IllegalStateException not in state STEP_1") :=
  ⟨(claim6_state_machine_guards.1 _ "alice" "pw" (by decide) (by decide) (by decide) (by decide)
      (by decide)).1,
   (claim6_state_machine_guards.2.1 23 5 3 testH {} "1a" "13" [] (by decide) (by decide) (by decide)
      (by decide) (by decide)).1,
   (claim6_state_machine_guards.2.2.1 testH {} "ab" (by decide) (by decide) (by decide)).1,
   (claim6_state_machine_guards.2.2.2.1 23 5 3 testH _ "alice" "1a" "8" [] (by decide)).1,
   (claim6_state_machine_guards.2.2.2.2 23 5 3 testH {} "2" "ab" (by decide)).1⟩

/-- Claim C2 (amended): generateX(salt, identity, password) computes
h1 = H(identity ++ ":" ++ password) with leading '0' hex digits stripped,
then x = H(uppercase(salt ++ h1)) mod N, where the WHOLE concatenation of
the salt and h1 is uppercased before hashing (the source reads
(salt+hash1).toUpperCase(), not salt + hash1.toUpperCase()), and the
resulting hash is canonicalized (leading '0' digits stripped) before the
reduction mod N. -/
theorem claim2_generateX_canonicalization (N : Nat) (H : String → String) (sess : ClientSession)
    (salt identity password : String)
    (hs : salt ≠ "" ∧ salt ≠ "0") (hI : identity ≠ "" ∧ identity ≠ "0")
    (hP : password ≠ "" ∧ password ≠ "0") :
    generateX N H sess salt identity password
      = Except.ok
          (fromHex (stripZeros (H (jsToUpper
            (salt ++ stripZeros (H (identity ++ ":" ++ password)))))) % N,
           { sess with
             salt := some salt
             x := some (fromHex (stripZeros (H (jsToUpper
               (salt ++ stripZeros (H (identity ++ ":" ++ password)))))) % N) }) := by
  have h := generateX_ok N H sess salt identity password hs hI hP
  unfold clientX at h
  exact h

/-- Counterexample to claim C2 as stated: with salt "a1" (containing a
lowercase hex letter), the x computed by generateX differs from the claimed
formula H(salt ++ uppercase(h1)) mod N in which only h1 is uppercased. -/
theorem claim2_uppercase_scope_counterexample :
    xOf (generateX 23 testH {} "a1" "bob" "pw")
      ≠ some (fromHex (stripZeros (testH
          ("a1" ++ jsToUpper (stripZeros (testH ("bob" ++ ":" ++ "pw")))))) % 23) := by
  decide

theorem claim2_generateX_canonicalization_witness :
    generateX 23 testH {} "a1" "bob" "pw"
      = Except.ok
          (fromHex (stripZeros (testH (jsToUpper
            ("a1" ++ stripZeros (testH ("bob" ++ ":" ++ "pw")))))) % 23,
           ⟨INIT, some (fromHex (stripZeros (testH (jsToUpper
             ("a1" ++ stripZeros (testH ("bob" ++ ":" ++ "pw")))))) % 23),
            none, none, none, some "a1", none, none, none, none, none, none,
            none, none⟩) :=
  claim2_generateX_canonicalization 23 testH {} "a1" "bob" "pw" (by decide) (by decide) (by decide)

set_option maxRecDepth 100000 in
/-- Claim C8, code evaluated at the failing configuration: the client's
randomA is called as this.randomA(this.N) (src/browser.js line 435), which
passes the prototype's N accessor function instead of the prime, so
hexLength = this.toHex(N).length is the length of the accessor's source
text, 63, while the hex length of the package's RFC 5054 2048-bit N is
512. The claim's requirement that each candidate draw at least as many
random hex digits as N (and be reduced exactly mod N by modPow(ONE, N))
therefore fails on the client; the server's randomB, whose this.N is the
BigInteger value, satisfies it. -/
theorem claim8_client_randomA_hex_digits_shortfall :
    clientRandomAHexLength = 63 ∧ (toHex rfc5054N).length = 512 ∧
      clientRandomAHexLength < (toHex rfc5054N).length := by
  have hlen : (toHex rfc5054N).length = 512 := by
    rw [toHex_length rfc5054N (by unfold rfc5054N; norm_num)]
    have hlog : Nat.log 16 rfc5054N = 511 :=
      Nat.log_eq_of_pow_le_of_lt_pow (by unfold rfc5054N; norm_num)
        (by unfold rfc5054N; norm_num)
    rw [hlog]
  refine ⟨rfl, hlen, ?_⟩
  rw [hlen]
  decide

/-- Claim C10 (amended): on both session types getSessionKey takes an
optional boolean; for every session in which the shared secret S has been
computed, getSessionKey(false) returns the raw shared secret hex toHex S
unhashed, while getSessionKey() with no argument (or with true) returns
H(toHex S) when no key has been cached yet, caching it; if a key K was
already cached by an earlier call it is returned as-is (even if S has since
been recomputed, see the counterexample); when S has not been computed,
every call returns null. -/
theorem claim10_getSessionKey_raw_and_hashed (H : String → String) :
    (∀ (sess : ClientSession) (S : Nat), sess.S = some S →
      (clientGetSessionKey H sess (some false)).1 = some (toHex S) ∧
      (sess.K = none →
        (clientGetSessionKey H sess none).1 = some (H (toHex S)) ∧
        (clientGetSessionKey H sess (some true)).1 = some (H (toHex S))) ∧
      (∀ K0, sess.K = some K0 → (clientGetSessionKey H sess none).1 = some K0)) ∧
    (∀ (sess : ClientSession) (hash : Option Bool), sess.S = none →
      (clientGetSessionKey H sess hash).1 = none) ∧
    (∀ (sess : ServerSession) (S : Nat), sess.S = some S →
      (serverGetSessionKey H sess (some false)).1 = some (toHex S) ∧
      (sess.K = none →
        (serverGetSessionKey H sess none).1 = some (H (toHex S)) ∧
        (serverGetSessionKey H sess (some true)).1 = some (H (toHex S))) ∧
      (∀ K0, sess.K = some K0 → (serverGetSessionKey H sess none).1 = some K0)) ∧
    (∀ (sess : ServerSession) (hash : Option Bool), sess.S = none →
      (serverGetSessionKey H sess hash).1 = none) := by
  refine ⟨?_, ?_, ?_, ?_⟩
  · intro sess S hS
    refine ⟨?_, ?_, ?_⟩
    · unfold clientGetSessionKey; simp [hS]
    · intro hK
      constructor
      · unfold clientGetSessionKey; simp [hS, hK]
      · unfold clientGetSessionKey; simp [hS, hK]
    · intro K0 hK
      unfold clientGetSessionKey; simp [hS, hK]
  · intro sess hash hS
    unfold clientGetSessionKey; simp [hS]
  · intro sess S hS
    refine ⟨?_, ?_, ?_⟩
    · unfold serverGetSessionKey; simp [hS]
    · intro hK
      constructor
      · unfold serverGetSessionKey; simp [hS, hK]
      · unfold serverGetSessionKey; simp [hS, hK]
    · intro K0 hK
      unfold serverGetSessionKey; simp [hS, hK]
  · intro sess hash hS
    unfold serverGetSessionKey; simp [hS]

/-- Counterexample to claim C10 as stated: after a failed server step2 sets
S = 2 and getSessionKey() caches its hash "11", a second failed step2 with
a different A recomputes S = 18, yet getSessionKey() still returns the
cached "11" rather than H(hex(18)). -/
theorem claim10_stale_cached_key_counterexample :
    ((serverStep2 23 5 3 testH
        (serverGetSessionKey testH
          (serverStep2 23 5 3 testH
            (serverStep1 23 5 3 testH {} "alice" "1a" "2" [("0f", "7")]).2
            "2" "deadbeef").2
          none).2
        "3" "deadbeef").2.S = some 18) ∧
    ((serverGetSessionKey testH
        (serverStep2 23 5 3 testH
          (serverGetSessionKey testH
            (serverStep2 23 5 3 testH
              (serverStep1 23 5 3 testH {} "alice" "1a" "2" [("0f", "7")]).2
              "2" "deadbeef").2
            none).2
          "3" "deadbeef").2
        none).1 = some "11") ∧
    testH (toHex 18) ≠ "11" := by
  refine ⟨by decide, by decide, by decide⟩

theorem claim10_getSessionKey_raw_and_hashed_witness :
    ((clientGetSessionKey testH
        ⟨STEP_2, none, none, none, none, none, none, none, none, none, some 7,
          none, none, none⟩ (some false)).1 = some (toHex 7)) ∧
    ((clientGetSessionKey testH
        ⟨STEP_2, none, none, none, none, none, none, none, none, none, some 7,
          none, none, none⟩ none).1 = some (testH (toHex 7))) ∧
    ((clientGetSessionKey testH {} none).1 = none) ∧
    ((serverGetSessionKey testH
        ⟨STEP_2, none, none, none, none, none, some 9, none, none⟩
        (some false)).1 = some (toHex 9)) ∧
    ((serverGetSessionKey testH
        ⟨STEP_2, none, none, none, none, none, some 9, none, none⟩ none).1
      = some (testH (toHex 9))) ∧
    ((serverGetSessionKey testH {} (some false)).1 = none) :=
  ⟨((claim10_getSessionKey_raw_and_hashed testH).1 _ 7 rfl).1,
   (((claim10_getSessionKey_raw_and_hashed testH).1 _ 7 rfl).2.1 rfl).1,
   ((claim10_getSessionKey_raw_and_hashed testH).2.1 {} none rfl),
   ((claim10_getSessionKey_raw_and_hashed testH).2.2.1 _ 9 rfl).1,
   ((((claim10_getSessionKey_raw_and_hashed testH).2.2.1 _ 9 rfl).2.1) rfl).1,
   ((claim10_getSessionKey_raw_and_hashed testH).2.2.2 {} (some false) rfl)⟩

/-- Claim C5: for every registration (identity, salt, verifier generated
from passwordReg) and every login attempt with the correct identity and
salt but a different password, server.step2 raises Bad client credentials
and never returns successfully. The hypothesis hMismatch states that the
client's proof hash differs from the server's recomputed one, which is
where the collision-resistance of the concrete hash enters: for an
abstract H the failure of the proofs to collide cannot be derived, and a
hash collision is the only way a wrong password could be accepted. The
remaining hypotheses are the same non-degeneracy conditions as in claim
C1. -/
theorem claim5_wrong_password_rejected (N g k : Nat) (H : String → String)
    (identity passwordReg passwordLogin salt : String)
    (bRands aRands : List (String × String)) (a b : Nat)
    (hN : 0 < N)
    (hH : ∀ t, stripZeros (H t) ≠ "")
    (hI : identity ≠ "" ∧ identity ≠ "0")
    (hPreg : passwordReg ≠ "" ∧ passwordReg ≠ "0")
    (hPlogin : passwordLogin ≠ "" ∧ passwordLogin ≠ "0")
    (hs : salt ≠ "" ∧ salt ≠ "0")
    (hv : g ^ (clientX N H salt identity passwordReg) % N ≠ 0)
    (hb : randomB H N identity (toDec (fromHex salt)) bRands = some b)
    (ha : randomA H identity salt aRands = some a)
    (hB : (g ^ b % N + (g ^ (clientX N H salt identity passwordReg) % N) * k) % N ≠ 0)
    (hA : g ^ a % N ≠ 0)
    (hu : fromHex (H (toHex (g ^ a % N) ++ toHex ((g ^ b % N + (g ^ (clientX N H salt identity passwordReg) % N) * k) % N))) ≠ 0)
    (hMismatch : (stripZeros (H (toHex (g ^ a % N) ++ toHex ((g ^ b % N + (g ^ (clientX N H salt identity passwordReg) % N) * k) % N) ++ toHex (computeSessionKey N g k (clientX N H salt identity passwordLogin) (fromHex (H (toHex (g ^ a % N) ++ toHex ((g ^ b % N + (g ^ (clientX N H salt identity passwordReg) % N) * k) % N)))) a ((g ^ b % N + (g ^ (clientX N H salt identity passwordReg) % N) * k) % N))))) ≠ (stripZeros (H (toHex (g ^ a % N) ++ toHex ((g ^ b % N + (g ^ (clientX N H salt identity passwordReg) % N) * k) % N) ++ toHex (((g ^ (clientX N H salt identity passwordReg) % N) ^ (fromHex (H (toHex (g ^ a % N) ++ toHex ((g ^ b % N + (g ^ (clientX N H salt identity passwordReg) % N) * k) % N)))) % N * (g ^ a % N)) ^ b % N))))) :
    loginRun N g k H identity passwordReg passwordLogin salt bRands aRands
      = Except.error "Bad client credentials" := by
  have hvhex : toHex (g ^ (clientX N H salt identity passwordReg) % N) ≠ "" ∧ toHex (g ^ (clientX N H salt identity passwordReg) % N) ≠ "0" :=
    ⟨toHex_ne_empty _, by rw [Ne, toHex_eq_zeroStr_iff]; exact hv⟩
  have hBvhex : toHex ((g ^ b % N + (g ^ (clientX N H salt identity passwordReg) % N) * k) % N) ≠ "" ∧ toHex ((g ^ b % N + (g ^ (clientX N H salt identity passwordReg) % N) * k) % N) ≠ "0" :=
    ⟨toHex_ne_empty _, by rw [Ne, toHex_eq_zeroStr_iff]; exact hB⟩
  have hAhex : toHex (g ^ a % N) ≠ "" ∧ toHex (g ^ a % N) ≠ "0" :=
    ⟨toHex_ne_empty _, by rw [Ne, toHex_eq_zeroStr_iff]; exact hA⟩
  have hBmod : fromHex (toHex ((g ^ b % N + (g ^ (clientX N H salt identity passwordReg) % N) * k) % N)) % N ≠ 0 := by
    rw [fromHex_toHex, Nat.mod_eq_of_lt (Nat.mod_lt _ hN)]
    exact hB
  have h1 := generateVerifier_ok N g H {} salt identity passwordReg hs hI hPreg
  have h2 := serverStep1_ok N g k H {} identity salt
    (toHex (g ^ (clientX N H salt identity passwordReg) % N)) bRands b rfl hI hs hvhex hb
  simp only [fromHex_toHex] at h2
  have h3 := clientStep1_ok {} identity passwordLogin hI hPlogin rfl
  have h4 := clientStep2_ok N g k H
    ⟨STEP_1, none, none, some identity, some passwordLogin, none, none, none,
      none, none, none, none, none, none⟩
    salt (toHex ((g ^ b % N + (g ^ (clientX N H salt identity passwordReg) % N) * k) % N)) aRands identity passwordLogin a rfl rfl rfl hs hBvhex
    hBmod hI hPlogin ha hA hu (hH _)
  simp only [fromHex_toHex] at h4
  have h5 := serverStep2_badcreds N g k H
    ⟨STEP_1, some (g ^ (clientX N H salt identity passwordReg) % N), some identity, some (fromHex salt), some b,
      some ((g ^ b % N + (g ^ (clientX N H salt identity passwordReg) % N) * k) % N), none, none, none⟩
    (toHex (g ^ a % N)) (stripZeros (H (toHex (g ^ a % N) ++ toHex ((g ^ b % N + (g ^ (clientX N H salt identity passwordReg) % N) * k) % N) ++ toHex (computeSessionKey N g k (clientX N H salt identity passwordLogin) (fromHex (H (toHex (g ^ a % N) ++ toHex ((g ^ b % N + (g ^ (clientX N H salt identity passwordReg) % N) * k) % N)))) a ((g ^ b % N + (g ^ (clientX N H salt identity passwordReg) % N) * k) % N))))) ((g ^ b % N + (g ^ (clientX N H salt identity passwordReg) % N) * k) % N) (g ^ (clientX N H salt identity passwordReg) % N) b rfl rfl rfl rfl hAhex
    ⟨hH _, stripZeros_ne_zeroStr _⟩ hB hu (hH _)
    (by simp only [fromHex_toHex]; exact hMismatch)
  unfold loginRun
  rw [h1]
  dsimp only []
  rw [h2]
  dsimp only []
  rw [h3]
  dsimp only []
  rw [h4]
  dsimp only []
  rw [h5]

set_option maxRecDepth 100000 in
theorem claim5_wrong_password_rejected_witness :
    loginRun 23 5 3 testH "alice" "pw" "pw2" "1a" [("0f", "7")] [("0c", "9")]
      = Except.error "Bad client credentials" :=
  claim5_wrong_password_rejected 23 5 3 testH "alice" "pw" "pw2" "1a" [("0f", "7")] [("0c", "9")]
    112 12 (by norm_num) testH_strip_ne (by decide) (by decide) (by decide)
    (by decide) (by decide) (by decide) (by decide) (by decide) (by decide)
    (by decide) (by decide)

theorem stripZeros_no_leading_zero (s : String) :
    (stripZeros s).data.head? ≠ some '0' := by
  intro h
  have := dropWhile_head_not (l := s.data) '0' h
  simp at this

theorem serverStep1_inv (N g k : Nat) (H : String → String) (sess0 : ServerSession)
    (identity salt verifier : String) (rands : List (String × String))
    (Bstr : String) (sess : ServerSession)
    (h : serverStep1 N g k H sess0 identity salt verifier rands
      = (Except.ok Bstr, sess)) :
    ∃ b, randomB H N identity (toDec (fromHex salt)) rands = some b ∧
      sess = { sess0 with
        I := some identity
        v := some (fromHex verifier)
        salt := some (fromHex salt)
        state := STEP_1
        b := some b
        B := some ((g ^ b % N + fromHex verifier * k) % N) } ∧
      Bstr = toHex ((g ^ b % N + fromHex verifier * k) % N) := by
  unfold serverStep1 at h
  dsimp only [] at h
  split at h
  · simp at h
  split at h
  · simp at h
  split at h
  · simp at h
  split at h
  · simp at h
  split at h
  · simp at h
  · rename_i b hb
    simp only [Prod.mk.injEq, Except.ok.injEq] at h
    exact ⟨b, hb, h.2.symm, h.1.symm⟩

/-- Claim C4: for every server session that has completed step1, restoring
a fresh session via fromPrivateStoreState(toPrivateStoreState()) reproduces
the same identity, verifier, salt and private value b (the restored session
equals the original field-for-field), recomputes exactly the same public
value B that step1 already returned, sets the restored session's state to
STEP_1, and the restored session behaves identically to the original on
every subsequent step2 call, so it can complete step2 successfully against
a client that used the originally issued B. -/
theorem claim4_private_store_roundtrip (N g k : Nat) (H : String → String)
    (identity salt verifier : String) (rands : List (String × String))
    (Bstr : String) (sess : ServerSession)
    (h : serverStep1 N g k H {} identity salt verifier rands
      = (Except.ok Bstr, sess)) :
    sess.state = STEP_1 ∧
    ∃ st, toPrivateStoreState sess = some st ∧
      fromPrivateStoreState N g k {} st = sess ∧
      sess.B = some (fromHex Bstr) ∧
      ∀ Astr M1c, serverStep2 N g k H (fromPrivateStoreState N g k {} st) Astr M1c
        = serverStep2 N g k H sess Astr M1c := by
  obtain ⟨b, hb, hsess, hBstr⟩ :=
    serverStep1_inv N g k H {} identity salt verifier rands Bstr sess h
  subst hsess
  subst hBstr
  have hrt : fromPrivateStoreState N g k {}
      ⟨identity, toHex (fromHex verifier), toHex (fromHex salt), toHex b⟩
      = { ({} : ServerSession) with
          I := some identity
          v := some (fromHex verifier)
          salt := some (fromHex salt)
          state := STEP_1
          b := some b
          B := some ((g ^ b % N + fromHex verifier * k) % N) } := by
    unfold fromPrivateStoreState
    simp [fromHex_toHex]
  refine ⟨rfl, ⟨_, rfl, hrt, ?_, fun Astr M1c => by rw [hrt]⟩⟩
  simp [fromHex_toHex]

/-- Claim C3: the leading-zero canonicalization applies only to the proofs.
Every M1 returned by a successful client.step2 and every M2 returned by a
successful server.step2 is the leading-zero-stripped hash and never starts
with a '0' hex digit; the expected values recomputed in server.step2 and
client.step3 are stripped the same way before the comparison (success
implies the received proof equals the stripped recomputation). A is emitted
by client.step2 as toHex A and B by server.step1 as toHex B, the natural
big-integer hex encoding with no stripping applied, the verifier from
generateVerifier is toHex v likewise, and generateRandomSalt emits the raw
hash output with no stripping. -/
theorem claim3_proof_canonicalization_only :
    (∀ (N g k : Nat) (H : String → String) (sess : ClientSession) (s BB : String)
      (rands : List (String × String)) (AA M1 : String) (sessOut : ClientSession),
      clientStep2 N g k H sess s BB rands = (Except.ok (AA, M1), sessOut) →
      ∃ A S, sessOut.A = some A ∧ sessOut.S = some S ∧ AA = toHex A ∧
        M1 = stripZeros (H (toHex A ++ BB ++ toHex S)) ∧
        M1.data.head? ≠ some '0') ∧
    (∀ (N g k : Nat) (H : String → String) (sess : ServerSession)
      (Astr M1c M2 : String) (sessOut : ServerSession),
      serverStep2 N g k H sess Astr M1c = (Except.ok M2, sessOut) →
      ∃ B S, sess.B = some B ∧ sessOut.S = some S ∧
        M1c = stripZeros (H (Astr ++ toHex B ++ toHex S)) ∧
        M2 = stripZeros (H (toHex (fromHex Astr) ++ M1c ++ toHex S)) ∧
        M2.data.head? ≠ some '0') ∧
    (∀ (H : String → String) (sess : ClientSession) (M2 : String) (r : Bool)
      (sessOut : ClientSession),
      clientStep3 H sess M2 = (Except.ok r, sessOut) →
      ∃ A M1 S, sess.A = some A ∧ sess.M1str = some M1 ∧ sess.S = some S ∧
        stripZeros (H (toHex A ++ M1 ++ toHex S)) = M2) ∧
    (∀ (N g k : Nat) (H : String → String) (sess0 : ServerSession)
      (identity salt verifier : String) (rands : List (String × String))
      (Bstr : String) (sessOut : ServerSession),
      serverStep1 N g k H sess0 identity salt verifier rands
        = (Except.ok Bstr, sessOut) →
      ∃ B, sessOut.B = some B ∧ Bstr = toHex B) ∧
    (∀ (N g : Nat) (H : String → String) (sess : ClientSession)
      (salt identity password vstr : String) (sessOut : ClientSession),
      generateVerifier N g H sess salt identity password
        = Except.ok (vstr, sessOut) →
      ∃ v, sessOut.v = some v ∧ vstr = toHex v) ∧
    (∀ (H : String → String) (d o r : String),
      generateRandomSalt H d o r = H (d ++ ":" ++ o ++ ":" ++ r)) := by
  refine ⟨?_, ?_, ?_, ?_, ?_, ?_⟩
  · intro N g k H sess s BB rands AA M1 sessOut h
    unfold clientStep2 at h
    dsimp only [] at h
    repeat' split at h
    any_goals (solve | simp at h)
    simp only [Prod.mk.injEq, Except.ok.injEq] at h
    obtain ⟨⟨hAA, hM1⟩, hsess⟩ := h
    subst hsess
    exact ⟨_, _, rfl, rfl, hAA.symm, hM1.symm,
      by rw [← hM1]; exact stripZeros_no_leading_zero _⟩
  · intro N g k H sess Astr M1c M2 sessOut h
    unfold serverStep2 at h
    dsimp only [] at h
    repeat' split at h
    any_goals (solve | simp at h)
    rename_i hM1ne hcond
    simp only [Prod.mk.injEq, Except.ok.injEq] at h
    obtain ⟨hM2, hsess⟩ := h
    subst hsess
    refine ⟨_, _, ?_, rfl, not_ne_iff.mp hcond, ?_, ?_⟩
    · assumption
    · rw [not_ne_iff.mp hcond]
      exact hM2.symm
    · rw [← hM2]
      exact stripZeros_no_leading_zero _
  · intro H sess M2 r sessOut h
    unfold clientStep3 at h
    dsimp only [] at h
    repeat' split at h
    any_goals (solve | simp at h)
    rename_i hcond
    exact ⟨_, _, _, by assumption, by assumption, by assumption,
      not_ne_iff.mp hcond⟩
  · intro N g k H sess0 identity salt verifier rands Bstr sessOut h
    obtain ⟨b, hb, hsess, hBstr⟩ :=
      serverStep1_inv N g k H sess0 identity salt verifier rands Bstr sessOut h
    subst hsess
    exact ⟨_, rfl, hBstr⟩
  · intro N g H sess salt identity password vstr sessOut h
    unfold generateVerifier at h
    dsimp only [] at h
    repeat' split at h
    any_goals (solve | simp at h)
    simp only [Prod.mk.injEq, Except.ok.injEq] at h
    obtain ⟨hv, hsess⟩ := h
    subst hsess
    exact ⟨_, rfl, hv.symm⟩
  · intro H d o r
    rfl


set_option maxRecDepth 100000 in
theorem claim4_private_store_roundtrip_witness :
    (⟨STEP_1, some 8, some "alice", some 26, some 12, some 19, none, none,
        none⟩ : ServerSession).state = STEP_1 ∧
    ∃ st, toPrivateStoreState
        ⟨STEP_1, some 8, some "alice", some 26, some 12, some 19, none, none,
          none⟩ = some st ∧
      fromPrivateStoreState 23 5 3 {} st
        = ⟨STEP_1, some 8, some "alice", some 26, some 12, some 19, none, none,
            none⟩ ∧
      (⟨STEP_1, some 8, some "alice", some 26, some 12, some 19, none, none,
          none⟩ : ServerSession).B = some (fromHex "13") ∧
      ∀ Astr M1c, serverStep2 23 5 3 testH (fromPrivateStoreState 23 5 3 {} st)
          Astr M1c
        = serverStep2 23 5 3 testH
            ⟨STEP_1, some 8, some "alice", some 26, some 12, some 19, none,
              none, none⟩ Astr M1c :=
  claim4_private_store_roundtrip 23 5 3 testH "alice" "1a" "8" [("0f", "7")] "13"
    ⟨STEP_1, some 8, some "alice", some 26, some 12, some 19, none, none, none⟩
    (by decide)

set_option maxRecDepth 100000 in
theorem claim3_proof_canonicalization_only_witness :
    (∃ A S, (⟨STEP_2, some 6, none, some "alice", none, some "1a", some 19,
          some 2, some 112, some 130, some 18, none, none, some "27"⟩ :
          ClientSession).A = some A ∧
      (⟨STEP_2, some 6, none, some "alice", none, some "1a", some 19, some 2,
          some 112, some 130, some 18, none, none, some "27"⟩ :
          ClientSession).S = some S ∧
      "2" = toHex A ∧
      "27" = stripZeros (testH (toHex A ++ "13" ++ toHex S)) ∧
      ("27" : String).data.head? ≠ some '0') ∧
    (∃ B S, (⟨STEP_1, some 8, some "alice", some 26, some 12, some 19, none,
          none, none⟩ : ServerSession).B = some B ∧
      (⟨STEP_2, some 8, some "alice", some 26, some 12, some 19, some 18, none,
          none⟩ : ServerSession).S = some S ∧
      "27" = stripZeros (testH ("2" ++ toHex B ++ toHex S)) ∧
      "28" = stripZeros (testH (toHex (fromHex "2") ++ "27" ++ toHex S)) ∧
      ("28" : String).data.head? ≠ some '0') ∧
    generateRandomSalt testH "somedate" "undefined" "aabb"
      = testH ("somedate" ++ ":" ++ "undefined" ++ ":" ++ "aabb") :=
  ⟨claim3_proof_canonicalization_only.1 23 5 3 testH
      ⟨STEP_1, none, none, some "alice", some "pw", none, none, none, none,
        none, none, none, none, none⟩ "1a" "13" [("0c", "9")] "2" "27"
      ⟨STEP_2, some 6, none, some "alice", none, some "1a", some 19, some 2,
        some 112, some 130, some 18, none, none, some "27"⟩ (by decide),
   claim3_proof_canonicalization_only.2.1 23 5 3 testH
      ⟨STEP_1, some 8, some "alice", some 26, some 12, some 19, none, none,
        none⟩ "2" "27" "28"
      ⟨STEP_2, some 8, some "alice", some 26, some 12, some 19, some 18, none,
        none⟩ (by decide),
   claim3_proof_canonicalization_only.2.2.2.2.2 testH "somedate" "undefined" "aabb"⟩

end Thinbus
